import Mathlib

/-!
Shallow embedding of src/examples/pipeline/src/common/Block.cpp.

A Block replicates an aff3ct task across n_threads worker threads, creates one
Buffered_Socket per named task socket (keyed by socket name, split by
direction), lets blocks be bound together by socket name, and runs a
pull / exec / push loop per worker thread until a shared stop flag is raised.

The embedding keeps the source's names where Lean allows it.  Buffered_Socket
itself (Buffered_Socket.hpp / .cpp) is not among the sources; the few places
depending on its behaviour are modelled from the spec and say so in their doc
comments.
-/

namespace PipelineBlock

/-- Direction of a task socket, mirroring the aff3ct socket_t values that
Block.cpp inspects: SIN marks an input; the constructor's add_socket treats
every non-SIN socket as an output. -/
inductive SocketDir where
  | sin
  | sout
deriving DecidableEq

/-- One named, typed socket descriptor of a task, as Block.cpp reads it:
get_name, get_datatype_string, and the task's get_socket_type folded into a
direction field. -/
structure Socket where
  name : String
  datatype : String
  dir : SocketDir
deriving DecidableEq

/-- The unit-of-work template (aff3ct Task) as Block.cpp uses it: its name,
the three behaviour flags the constructor toggles, and its socket list. -/
structure Task where
  name : String
  autoalloc : Bool := true
  autoexec : Bool := true
  fast : Bool := true
  sockets : List Socket
deriving DecidableEq

/-- Task::clone produces an independent copy of the task; on values this is
the value itself. -/
def Task.clone (t : Task) : Task := t

/-- Task::set_autoalloc. -/
def Task.set_autoalloc (t : Task) (b : Bool) : Task := { t with autoalloc := b }

/-- Task::set_autoexec. -/
def Task.set_autoexec (t : Task) (b : Bool) : Task := { t with autoexec := b }

/-- Task::set_fast. -/
def Task.set_fast (t : Task) (b : Bool) : Task := { t with fast := b }

/-- The aff3ct datatype strings the constructor's if/else-if chain matches. -/
def dtInt8 : String := "int8"

def dtInt16 : String := "int16"

def dtInt32 : String := "int32"

def dtInt64 : String := "int64"

def dtFloat32 : String := "float32"

def dtFloat64 : String := "float64"

/-- The six element types handled by the constructor (lines 67-72) and by the
dispatch in Block::bind (lines 99-104). -/
def supportedDatatypes : List String :=
  [dtInt8, dtInt16, dtInt32, dtInt64, dtFloat32, dtFloat64]

/-- Block-level view of one Buffered_Socket<T>: the element type tag (T, as
its aff3ct datatype string), the socket direction it was created with, and
the channel capacity (buffer_size at construction).  The field boundTo is
modelled from the spec: Buffered_Socket's own code is not among the sources,
and per the spec a successful bind makes the bound input channel a consumer
view over an output channel; boundTo records that link as the identity
(block name, socket name) of the output channel it reads from. -/
structure BufferedSocket where
  datatype : String
  stype : SocketDir
  capacity : Nat
  boundTo : Option (String × String) := none
deriving DecidableEq

/-- The error outcomes of Block.cpp, one constructor per kind of throw site:
invalidArgument for the two aff3ct invalid_argument throws of the constructor
(lines 25 and 35); notFound for the runtime_error throws raised when a
socket-map count for a requested name is zero (lines 95, 184, 219);
typeMismatch for the runtime_error throws raised when a socket's datatype
differs from the requested one (lines 174, 209); unreachable for the final
runtime_error of Block::bind (line 108).  The streamed message texts are
omitted. -/
inductive Err where
  | invalidArgument
  | notFound
  | typeMismatch
  | unreachable
deriving DecidableEq

/-- Lookup by key in a name-keyed socket map (std::map element access). -/
def mapFind (m : List (String × BufferedSocket)) (k : String) :
    Option BufferedSocket :=
  match m with
  | [] => none
  | (k', v) :: rest => if k' = k then some v else mapFind rest k

/-- Insertion through std::map operator[]: replaces the entry when the key is
already present, adds the entry otherwise. -/
def mapInsert (m : List (String × BufferedSocket)) (k : String)
    (v : BufferedSocket) : List (String × BufferedSocket) :=
  match m with
  | [] => [(k, v)]
  | (k', v') :: rest => if k' = k then (k, v) :: rest else (k', v') :: mapInsert rest k v

/-- The Block state built by the constructor: the task's name, the
concurrency parameters, the replica list, and the two socket maps. -/
structure Block where
  name : String
  n_threads : Nat
  buffer_size : Nat
  tasks : List Task
  buffered_sockets_in : List (String × BufferedSocket)
  buffered_sockets_out : List (String × BufferedSocket)
deriving DecidableEq

/-- One turn of the socket loop of the Block constructor (lines 46-73): for a
socket whose datatype string is one of the six supported ones, a
Buffered_Socket of that element type and capacity buffer_size is created and
stored under the socket's name, in buffered_sockets_in when the socket type
is SIN and in buffered_sockets_out otherwise; a socket of any other datatype
matches none of the if/else-if branches and is skipped. -/
def addChannelFor (buffer_size : Nat)
    (maps : List (String × BufferedSocket) × List (String × BufferedSocket))
    (s : Socket) :
    List (String × BufferedSocket) × List (String × BufferedSocket) :=
  let store := fun dt =>
    let ch : BufferedSocket := { datatype := dt, stype := s.dir, capacity := buffer_size }
    match s.dir with
    | SocketDir.sin => (mapInsert maps.1 s.name ch, maps.2)
    | SocketDir.sout => (maps.1, mapInsert maps.2 s.name ch)
  if s.datatype = dtInt8 then store dtInt8
  else if s.datatype = dtInt16 then store dtInt16
  else if s.datatype = dtInt32 then store dtInt32
  else if s.datatype = dtInt64 then store dtInt64
  else if s.datatype = dtFloat32 then store dtFloat32
  else if s.datatype = dtFloat64 then store dtFloat64
  else maps

/-- The whole socket loop of the constructor, processing the template's
sockets in order, starting from empty maps. -/
def buildChannels (socks : List Socket) (buffer_size : Nat)
    (maps : List (String × BufferedSocket) × List (String × BufferedSocket)) :
    List (String × BufferedSocket) × List (String × BufferedSocket) :=
  match socks with
  | [] => maps
  | s :: rest => buildChannels rest buffer_size (addChannelFor buffer_size maps s)

/-- Block::Block (lines 14-74): rejects n_threads = 0 and
buffer_size < n_threads with invalid_argument before anything is built;
otherwise clones the task once, clears its autoalloc / autoexec / fast flags,
clones that prototype n_threads times into the replica list, and runs the
socket loop to build the two socket maps. -/
def Block.construct (task : Task) (buffer_size n_threads : Nat) :
    Except Err Block :=
  if n_threads = 0 then Except.error Err.invalidArgument
  else if buffer_size < n_threads then Except.error Err.invalidArgument
  else
    let task_cpy := ((task.clone.set_autoalloc false).set_autoexec false).set_fast false
    let tasks := (List.range n_threads).map (fun _ => task_cpy.clone)
    let maps := buildChannels task.sockets buffer_size ([], [])
    Except.ok { name := task.name, n_threads := n_threads, buffer_size := buffer_size,
                tasks := tasks, buffered_sockets_in := maps.1,
                buffered_sockets_out := maps.2 }

/-- Block::get_buffered_socket_in<T> (lines 153-186): the name must be
present in buffered_sockets_in (else the count check throws, kind notFound)
and the stored socket's datatype string must equal T's (else typeMismatch). -/
def Block.get_buffered_socket_in (b : Block) (T : String) (name : String) :
    Except Err BufferedSocket :=
  match mapFind b.buffered_sockets_in name with
  | some ch => if ch.datatype = T then Except.ok ch else Except.error Err.typeMismatch
  | none => Except.error Err.notFound

/-- Block::get_buffered_socket_out<T> (lines 188-221): same checks against
buffered_sockets_out. -/
def Block.get_buffered_socket_out (b : Block) (T : String) (name : String) :
    Except Err BufferedSocket :=
  match mapFind b.buffered_sockets_out name with
  | some ch => if ch.datatype = T then Except.ok ch else Except.error Err.typeMismatch
  | none => Except.error Err.notFound

/-- Modelled from the spec: Buffered_Socket::bind (its code lives in the
Buffered_Socket files, which are not among the sources).  Per the spec,
binding "connects the ... input channel to read directly from [the] output
channel" - the input channel becomes a consumer view over the output channel
- and the operation reports success.  Here the input socket records the
identity of the output socket it now reads from and the call returns 0. -/
def socketBind (sck_in : BufferedSocket) (src : String × String) :
    BufferedSocket × Nat :=
  ({ sck_in with boundTo := some src }, 0)

/-- Block::bind_by_type<T> (lines 76-83): fetch this block's input socket and
the destination block's output socket at type T, then connect the input
socket to the output socket.  A throw from either getter propagates and
leaves both blocks untouched; the returned triple is (result, this block
afterwards, destination block afterwards). -/
def Block.bind_by_type (T : String) (b : Block) (start_sck_name : String)
    (dest_block : Block) (dest_sck_name : String) :
    Except Err Nat × Block × Block :=
  match b.get_buffered_socket_in T start_sck_name with
  | Except.error e => (Except.error e, b, dest_block)
  | Except.ok sck_in =>
    match dest_block.get_buffered_socket_out T dest_sck_name with
    | Except.error e => (Except.error e, b, dest_block)
    | Except.ok _ =>
      let r := socketBind sck_in (dest_block.name, dest_sck_name)
      (Except.ok r.2,
       { b with buffered_sockets_in := mapInsert b.buffered_sockets_in start_sck_name r.1 },
       dest_block)

/-- Block::bind (lines 85-109): the first name must be present in THIS
block's buffered_sockets_in (else notFound); the stored input socket's
datatype is then dispatched over the six supported types to bind_by_type<T>,
and any other datatype raises the final runtime_error (kind unreachable). -/
def Block.bind (b : Block) (start_sck_name : String) (dest_block : Block)
    (dest_sck_name : String) : Except Err Nat × Block × Block :=
  match mapFind b.buffered_sockets_in start_sck_name with
  | none => (Except.error Err.notFound, b, dest_block)
  | some ch =>
    if ch.datatype = dtInt8 then
      Block.bind_by_type dtInt8 b start_sck_name dest_block dest_sck_name
    else if ch.datatype = dtInt16 then
      Block.bind_by_type dtInt16 b start_sck_name dest_block dest_sck_name
    else if ch.datatype = dtInt32 then
      Block.bind_by_type dtInt32 b start_sck_name dest_block dest_sck_name
    else if ch.datatype = dtInt64 then
      Block.bind_by_type dtInt64 b start_sck_name dest_block dest_sck_name
    else if ch.datatype = dtFloat32 then
      Block.bind_by_type dtFloat32 b start_sck_name dest_block dest_sck_name
    else if ch.datatype = dtFloat64 then
      Block.bind_by_type dtFloat64 b start_sck_name dest_block dest_sck_name
    else (Except.error Err.unreachable, b, dest_block)

/-!
Model of the worker-thread loop Block::execute_task (lines 125-144).

The shared flag is_done is written by another thread; each of its reads, and
each pop / push result, is therefore an input of the model.  A run is driven
by three oracles consumed head first: dr gives the successive observations of
is_done (an exhausted oracle reads as true, i.e. the flag has been set), pr
gives the successive pop results and qr the successive push results (an
exhausted oracle reads as false: no data / buffer full).  The loop emits a
trace of the externally visible calls it makes.
-/

/-- The externally visible calls of one worker thread: pop and push on a
named buffered socket for a thread id, the replica's exec, and stop on a
named output or input socket. -/
inductive Ev where
  | popCall (sck : String) (tid : Nat)
  | execCall (tid : Nat)
  | pushCall (sck : String) (tid : Nat)
  | stopOut (sck : String)
  | stopIn (sck : String)
deriving DecidableEq

/-- Is the event a stop() on an output socket? -/
def Ev.isStopOut : Ev → Bool
  | Ev.stopOut _ => true
  | _ => false

/-- Is the event a stop() on an input socket? -/
def Ev.isStopIn : Ev → Bool
  | Ev.stopIn _ => true
  | _ => false

/-- Is the event a stop() of either direction? -/
def Ev.isStop : Ev → Bool
  | Ev.stopOut _ => true
  | Ev.stopIn _ => true
  | _ => false

/-- One read of the shared is_done flag: the head of the oracle, or true once
the oracle is exhausted (the flag, once set, stays set). -/
def readFlag : List Bool → Bool × List Bool
  | [] => (true, [])
  | d :: ds => (d, ds)

/-- One inner spin loop, while (!is_done && call(tid)) {}, over one socket:
each turn first reads is_done (stopping the loop when it is set, without
calling), then makes the call (emitting ev) and repeats while the call
returns true.  rs is the oracle of call results; the returned triple is
(trace, remaining dr, remaining rs). -/
def spinLoop (ev : Ev) : List Bool → List Bool → List Ev × List Bool × List Bool
  | [], rs => ([], [], rs)
  | d :: ds, rs =>
    if d then ([], ds, rs)
    else
      match rs with
      | [] => ([ev], ds, [])
      | r :: rs' =>
        if r then
          let t := spinLoop ev ds rs'
          (ev :: t.1, t.2.1, t.2.2)
        else ([ev], ds, rs')

/-- One for-loop over a socket map (lines 130-131 for the inputs, 138-139 for
the outputs): the sockets are visited in map order, spinning on each. -/
def pollAll (mkEv : String → Ev) (socks : List (String × BufferedSocket)) :
    List Bool → List Bool → List Ev × List Bool × List Bool
  | dr, rs =>
    match socks with
    | [] => ([], dr, rs)
    | (nm, _) :: rest =>
      let t := spinLoop (mkEv nm) dr rs
      let u := pollAll mkEv rest t.2.1 t.2.2
      (t.1 ++ u.1, u.2.1, u.2.2)

/-- Result of one iteration of the while body of execute_task. -/
structure IterResult where
  trace : List Ev
  dr : List Bool
  pr : List Bool
  qr : List Bool
  didBreak : Bool
deriving DecidableEq

/-- The input-polling phase of one iteration (lines 130-131): spin on every
input socket in map order. -/
def pullPhase (b : Block) (tid : Nat) (dr pr : List Bool) :
    List Ev × List Bool × List Bool :=
  pollAll (fun nm => Ev.popCall nm tid) b.buffered_sockets_in dr pr

/-- The observation of is_done made by the if at line 133, right after the
input-polling phase. -/
def midFlag (b : Block) (tid : Nat) (dr pr : List Bool) : Bool :=
  (readFlag (pullPhase b tid dr pr).2.1).1

/-- One iteration of the while body of execute_task (lines 130-139): poll
every input socket, re-check is_done and break when it is set, otherwise run
the replica's exec once and then spin pushing on every output socket. -/
def loopBody (b : Block) (tid : Nat) (dr pr qr : List Bool) : IterResult :=
  let t := pullPhase b tid dr pr
  let f := readFlag t.2.1
  if f.1 then
    { trace := t.1, dr := f.2, pr := t.2.2, qr := qr, didBreak := true }
  else
    let u := pollAll (fun nm => Ev.pushCall nm tid) b.buffered_sockets_out f.2 qr
    { trace := t.1 ++ Ev.execCall tid :: u.1, dr := u.2.1, pr := t.2.2,
      qr := u.2.2, didBreak := false }

/-- The while loop of execute_task (lines 128-140), fuel-bounded: each turn
reads is_done at the top of the loop, exits when it is set, and otherwise
runs one iteration of the body, stopping when the body broke out. -/
def loopRun (b : Block) (tid : Nat) : Nat → List Bool → List Bool → List Bool → List Ev
  | 0, _, _, _ => []
  | fuel + 1, dr, pr, qr =>
    let f := readFlag dr
    if f.1 then []
    else
      let it := loopBody b tid f.2 pr qr
      if it.didBreak then it.trace
      else it.trace ++ loopRun b tid fuel it.dr it.pr it.qr

/-- The shutdown phase of execute_task (lines 142-143): stop() on every
output socket in map order, then stop() on every input socket in map order. -/
def stopPhase (b : Block) : List Ev :=
  (b.buffered_sockets_out.map fun p => Ev.stopOut p.1) ++
  (b.buffered_sockets_in.map fun p => Ev.stopIn p.1)

/-- Block::execute_task (lines 125-144): the while loop followed by the
shutdown phase. -/
def execute_task (b : Block) (tid : Nat) (fuel : Nat) (dr pr qr : List Bool) :
    List Ev :=
  loopRun b tid fuel dr pr qr ++ stopPhase b

/-! Helper lemmas about the socket maps and the construction loop. -/

/-- Select one of the two socket maps by direction. -/
def dirMap (maps : List (String × BufferedSocket) × List (String × BufferedSocket)) :
    SocketDir → List (String × BufferedSocket)
  | SocketDir.sin => maps.1
  | SocketDir.sout => maps.2

lemma mapFind_mapInsert (m : List (String × BufferedSocket)) (k k' : String)
    (v : BufferedSocket) :
    mapFind (mapInsert m k v) k' = if k = k' then some v else mapFind m k' := by
  induction m with
  | nil =>
    by_cases h : k = k' <;> simp [mapInsert, mapFind, h]
  | cons hd tl ih =>
    obtain ⟨k0, v0⟩ := hd
    by_cases h0 : k0 = k
    · subst h0
      by_cases h : k0 = k' <;> simp [mapInsert, mapFind, h]
    · by_cases h : k0 = k'
      · subst h
        have hk : ¬ k = k0 := fun hkk => h0 hkk.symm
        simp [mapInsert, if_neg h0, mapFind, hk]
      · simp [mapInsert, if_neg h0, mapFind, h, ih]

lemma addChannelFor_find (bsz : Nat)
    (maps : List (String × BufferedSocket) × List (String × BufferedSocket))
    (a : Socket) (d : SocketDir) (nm : String) :
    mapFind (dirMap (addChannelFor bsz maps a) d) nm =
      (if a.datatype ∈ supportedDatatypes ∧ a.dir = d ∧ a.name = nm then
        some { datatype := a.datatype, stype := d, capacity := bsz, boundTo := none }
      else mapFind (dirMap maps d) nm) := by
  obtain ⟨an, adt, ad⟩ := a
  simp only [addChannelFor]
  cases ad <;> cases d <;>
    split_ifs <;>
    simp_all [dirMap, mapFind_mapInsert, supportedDatatypes,
      dtInt8, dtInt16, dtInt32, dtInt64, dtFloat32, dtFloat64]

lemma buildChannels_find_skip (bsz : Nat) (d : SocketDir) (nm : String) :
    ∀ (socks : List Socket)
      (maps : List (String × BufferedSocket) × List (String × BufferedSocket)),
      (∀ a ∈ socks, ¬(a.datatype ∈ supportedDatatypes ∧ a.dir = d ∧ a.name = nm)) →
      mapFind (dirMap (buildChannels socks bsz maps) d) nm = mapFind (dirMap maps d) nm := by
  intro socks
  induction socks with
  | nil => intro maps _; simp [buildChannels]
  | cons a rest ih =>
    intro maps h
    have ha := h a (List.mem_cons_self a rest)
    rw [buildChannels, ih (addChannelFor bsz maps a)
      (fun x hx => h x (List.mem_cons_of_mem a hx))]
    rw [addChannelFor_find, if_neg ha]

lemma buildChannels_find_stable (bsz : Nat) (d : SocketDir) (nm dt : String) :
    ∀ (socks : List Socket)
      (maps : List (String × BufferedSocket) × List (String × BufferedSocket)),
      (∀ a ∈ socks, a.dir = d → a.name = nm → a.datatype = dt) →
      mapFind (dirMap maps d) nm =
        some { datatype := dt, stype := d, capacity := bsz, boundTo := none } →
      mapFind (dirMap (buildChannels socks bsz maps) d) nm =
        some { datatype := dt, stype := d, capacity := bsz, boundTo := none } := by
  intro socks
  induction socks with
  | nil => intro maps _ hbase; simpa [buildChannels] using hbase
  | cons a rest ih =>
    intro maps h hbase
    rw [buildChannels]
    refine ih (addChannelFor bsz maps a) (fun x hx => h x (List.mem_cons_of_mem a hx)) ?_
    rw [addChannelFor_find]
    by_cases hc : a.datatype ∈ supportedDatatypes ∧ a.dir = d ∧ a.name = nm
    · rw [if_pos hc]
      rw [h a (List.mem_cons_self a rest) hc.2.1 hc.2.2]
    · rw [if_neg hc]; exact hbase

lemma buildChannels_find_of_mem (bsz : Nat) (s : Socket) :
    ∀ (socks : List Socket)
      (maps : List (String × BufferedSocket) × List (String × BufferedSocket)),
      s ∈ socks →
      s.datatype ∈ supportedDatatypes →
      (∀ a ∈ socks, a.dir = s.dir → a.name = s.name → a.datatype = s.datatype) →
      mapFind (dirMap (buildChannels socks bsz maps) s.dir) s.name =
        some { datatype := s.datatype, stype := s.dir, capacity := bsz, boundTo := none } := by
  intro socks
  induction socks with
  | nil => intro maps hmem; exact absurd hmem (List.not_mem_nil s)
  | cons a rest ih =>
    intro maps hmem hsupp hagree
    rw [buildChannels]
    by_cases hc : a.datatype ∈ supportedDatatypes ∧ a.dir = s.dir ∧ a.name = s.name
    · refine buildChannels_find_stable bsz s.dir s.name s.datatype rest
        (addChannelFor bsz maps a)
        (fun x hx => hagree x (List.mem_cons_of_mem a hx)) ?_
      rw [addChannelFor_find, if_pos hc,
        hagree a (List.mem_cons_self a rest) hc.2.1 hc.2.2]
    · have hsmem : s ∈ rest := by
        rcases List.mem_cons.mp hmem with h | h
        · exact absurd ⟨h ▸ hsupp, h ▸ rfl, h ▸ rfl⟩ hc
        · exact h
      exact ih (addChannelFor bsz maps a) hsmem hsupp
        (fun x hx => hagree x (List.mem_cons_of_mem a hx))

lemma buildChannels_supported (bsz : Nat) (d : SocketDir) :
    ∀ (socks : List Socket)
      (maps : List (String × BufferedSocket) × List (String × BufferedSocket)),
      (∀ nm ch, mapFind (dirMap maps d) nm = some ch →
        ch.datatype ∈ supportedDatatypes ∧ ch.boundTo = none) →
      ∀ nm ch, mapFind (dirMap (buildChannels socks bsz maps) d) nm = some ch →
        ch.datatype ∈ supportedDatatypes ∧ ch.boundTo = none := by
  intro socks
  induction socks with
  | nil => intro maps hbase; simpa [buildChannels] using hbase
  | cons a rest ih =>
    intro maps hbase
    rw [buildChannels]
    refine ih (addChannelFor bsz maps a) ?_
    intro nm ch hch
    rw [addChannelFor_find] at hch
    by_cases hc : a.datatype ∈ supportedDatatypes ∧ a.dir = d ∧ a.name = nm
    · rw [if_pos hc] at hch
      cases hch
      exact ⟨hc.1, rfl⟩
    · rw [if_neg hc] at hch
      exact hbase nm ch hch

/-- The successful branch of the constructor, spelled out. -/
lemma construct_eq_ok (task : Task) (buffer_size n_threads : Nat)
    (h1 : ¬ n_threads = 0) (h2 : ¬ buffer_size < n_threads) :
    Block.construct task buffer_size n_threads = Except.ok
      { name := task.name, n_threads := n_threads, buffer_size := buffer_size,
        tasks := (List.range n_threads).map
          (fun _ => ((task.clone.set_autoalloc false).set_autoexec false).set_fast false),
        buffered_sockets_in := (buildChannels task.sockets buffer_size ([], [])).1,
        buffered_sockets_out := (buildChannels task.sockets buffer_size ([], [])).2 } := by
  unfold Block.construct
  rw [if_neg h1, if_neg h2]
  rfl

/-- Every socket stored in a constructed block's maps has one of the six
supported datatypes and starts unbound. -/
lemma construct_channels_supported (task : Task) (buffer_size n_threads : Nat)
    (blk : Block) (hok : Block.construct task buffer_size n_threads = Except.ok blk)
    (d : SocketDir) (nm : String) (ch : BufferedSocket)
    (hch : mapFind (dirMap (blk.buffered_sockets_in, blk.buffered_sockets_out) d) nm = some ch) :
    ch.datatype ∈ supportedDatatypes ∧ ch.boundTo = none := by
  by_cases h1 : n_threads = 0
  · rw [Block.construct, if_pos h1] at hok; cases hok
  by_cases h2 : buffer_size < n_threads
  · rw [Block.construct, if_neg h1, if_pos h2] at hok; cases hok
  rw [construct_eq_ok task buffer_size n_threads h1 h2] at hok
  injection hok with hok
  subst hok
  refine buildChannels_supported buffer_size d task.sockets ([], []) ?_ nm ch ?_
  · intro nm' ch' hch'
    cases d <;> simp [dirMap, mapFind] at hch'
  · cases d <;> simpa [dirMap] using hch

/-- When the input socket found under the first name has one of the six
supported datatypes, Block::bind reduces to bind_by_type at that datatype. -/
lemma bind_eq_dispatch (b dest_block : Block) (start_sck_name dest_sck_name : String)
    (chIn : BufferedSocket)
    (hin : mapFind b.buffered_sockets_in start_sck_name = some chIn)
    (hsupp : chIn.datatype ∈ supportedDatatypes) :
    b.bind start_sck_name dest_block dest_sck_name =
      Block.bind_by_type chIn.datatype b start_sck_name dest_block dest_sck_name := by
  unfold Block.bind
  rw [hin]
  simp only [supportedDatatypes, List.mem_cons, List.mem_singleton,
    List.not_mem_nil, or_false] at hsupp
  rcases hsupp with h | h | h | h | h | h <;>
    simp [h, dtInt8, dtInt16, dtInt32, dtInt64, dtFloat32, dtFloat64]

/-- When the input socket found under the first name has a datatype outside
the six supported ones, Block::bind reaches the final runtime_error. -/
lemma bind_eq_unreachable (b dest_block : Block) (start_sck_name dest_sck_name : String)
    (chIn : BufferedSocket)
    (hin : mapFind b.buffered_sockets_in start_sck_name = some chIn)
    (hsupp : chIn.datatype ∉ supportedDatatypes) :
    b.bind start_sck_name dest_block dest_sck_name =
      (Except.error Err.unreachable, b, dest_block) := by
  unfold Block.bind
  rw [hin]
  simp only [supportedDatatypes, List.mem_cons, List.mem_singleton,
    List.not_mem_nil, or_false, not_or] at hsupp
  obtain ⟨h1, h2, h3, h4, h5, h6⟩ := hsupp
  simp [h1, h2, h3, h4, h5, h6]

/-! Concrete fixtures used by witnesses and counterexamples. -/

/-- Fixture socket names and a datatype string outside the supported six. -/
def nmI : String := "d_in"

def nmO : String := "d_out"

def dtBit : String := "bit"

/-- A task with one int32 input socket. -/
def taskI : Task :=
  { name := "consumer", sockets := [{ name := nmI, datatype := dtInt32, dir := SocketDir.sin }] }

/-- A task with one int32 output socket. -/
def taskO : Task :=
  { name := "producer", sockets := [{ name := nmO, datatype := dtInt32, dir := SocketDir.sout }] }

/-- A task with one float64 output socket. -/
def taskOF : Task :=
  { name := "fproducer", sockets := [{ name := nmO, datatype := dtFloat64, dir := SocketDir.sout }] }

/-- A task whose single socket has a datatype outside the supported six. -/
def taskBad : Task :=
  { name := "oddone", sockets := [{ name := nmI, datatype := dtBit, dir := SocketDir.sin }] }

/-- A task with one int32 input socket and one float64 output socket. -/
def taskW : Task :=
  { name := "bothdirs",
    sockets := [{ name := nmI, datatype := dtInt32, dir := SocketDir.sin },
                { name := nmO, datatype := dtFloat64, dir := SocketDir.sout }] }

/-- Extract the block a successful construction produced. -/
def blkOf (t : Task) (buffer_size n_threads : Nat) : Block :=
  match Block.construct t buffer_size n_threads with
  | Except.ok b => b
  | Except.error _ =>
    { name := t.name, n_threads := 0, buffer_size := 0, tasks := [],
      buffered_sockets_in := [], buffered_sockets_out := [] }

def blkI : Block := blkOf taskI 1 1

def blkO : Block := blkOf taskO 1 1

def blkOF : Block := blkOf taskOF 1 1

def blkBad : Block := blkOf taskBad 2 1

def blkW : Block := blkOf taskW 2 2

/-- A block state holding an input socket of an unsupported datatype; such a
state is reachable for no constructed block, but Block::bind is defined on
every block state. -/
def blkOdd : Block :=
  { name := "oddblk", n_threads := 1, buffer_size := 1, tasks := [],
    buffered_sockets_in :=
      [(nmI, { datatype := dtBit, stype := SocketDir.sin, capacity := 1, boundTo := none })],
    buffered_sockets_out := [] }

/-! Theorems for the claims, with their witnesses. -/

/-- Claim C1: for every template and every pair (buffer_size, n_threads),
Block construction succeeds when n_threads >= 1 and buffer_size >= n_threads,
and fails with an InvalidArgument error whenever n_threads = 0 or
buffer_size < n_threads; the two checks run at the top of the constructor,
before any replica or channel is created. -/
theorem c1_construct_validation (task : Task) (buffer_size n_threads : Nat) :
    (1 ≤ n_threads → n_threads ≤ buffer_size →
      ∃ blk, Block.construct task buffer_size n_threads = Except.ok blk) ∧
    ((n_threads = 0 ∨ buffer_size < n_threads) →
      Block.construct task buffer_size n_threads = Except.error Err.invalidArgument) := by
  constructor
  · intro h1 h2
    exact ⟨_, construct_eq_ok task buffer_size n_threads (by omega) (by omega)⟩
  · intro h
    rcases h with h | h
    · rw [Block.construct, if_pos h]
    · have h0 : ¬ n_threads = 0 := by omega
      rw [Block.construct, if_neg h0, if_pos h]

/-- Witness for C1 at a concrete template: (2, 1) is accepted, (2, 0) and
(1, 2) are rejected with InvalidArgument. -/
theorem c1_construct_validation_w :
    (∃ blk, Block.construct taskI 2 1 = Except.ok blk) ∧
    Block.construct taskI 2 0 = Except.error Err.invalidArgument ∧
    Block.construct taskI 1 2 = Except.error Err.invalidArgument :=
  ⟨(c1_construct_validation taskI 2 1).1 (by decide) (by decide),
   (c1_construct_validation taskI 2 0).2 (Or.inl rfl),
   (c1_construct_validation taskI 1 2).2 (Or.inr (by decide))⟩

/-- Claim C9: during construction the template is cloned once into a
prototype whose autoalloc / autoexec / fast flags are cleared before the
per-thread replicas are produced, so no replica carries those defaults. -/
theorem c9_flags_disabled (task : Task) (buffer_size n_threads : Nat) (blk : Block)
    (hok : Block.construct task buffer_size n_threads = Except.ok blk) :
    ∀ t ∈ blk.tasks, t.autoalloc = false ∧ t.autoexec = false ∧ t.fast = false := by
  by_cases h1 : n_threads = 0
  · rw [Block.construct, if_pos h1] at hok; cases hok
  by_cases h2 : buffer_size < n_threads
  · rw [Block.construct, if_neg h1, if_pos h2] at hok; cases hok
  rw [construct_eq_ok task buffer_size n_threads h1 h2] at hok
  injection hok with hok
  subst hok
  intro t ht
  simp only [List.mem_map] at ht
  obtain ⟨i, _, rfl⟩ := ht
  exact ⟨rfl, rfl, rfl⟩

/-- The flag-cleared prototype built from taskI. -/
def taskIOff : Task :=
  ((taskI.clone.set_autoalloc false).set_autoexec false).set_fast false

/-- Witness for C9: the replica of the 1-thread block over taskI has all
three flags cleared. -/
theorem c9_flags_disabled_w :
    taskIOff.autoalloc = false ∧ taskIOff.autoexec = false ∧ taskIOff.fast = false :=
  c9_flags_disabled taskI 1 1 blkI rfl taskIOff (by decide)

/-- Claim C10: a template socket whose datatype is outside the six supported
kinds produces no channel and no error: construction succeeds (for valid
parameters) and the socket's name is absent from both socket maps, provided
no other socket of the template carries that name with a supported type. -/
theorem c10_unsupported_skipped (task : Task) (buffer_size n_threads : Nat)
    (h1 : 1 ≤ n_threads) (h2 : n_threads ≤ buffer_size)
    (s : Socket) (hs : s ∈ task.sockets)
    (hodd : s.datatype ∉ supportedDatatypes)
    (hname : ∀ a ∈ task.sockets, a.name = s.name → a.datatype ∉ supportedDatatypes) :
    ∃ blk, Block.construct task buffer_size n_threads = Except.ok blk ∧
      mapFind blk.buffered_sockets_in s.name = none ∧
      mapFind blk.buffered_sockets_out s.name = none := by
  refine ⟨_, construct_eq_ok task buffer_size n_threads (by omega) (by omega), ?_, ?_⟩
  · have h := buildChannels_find_skip buffer_size SocketDir.sin s.name task.sockets ([], [])
      (fun a ha hc => hname a ha hc.2.2 hc.1)
    simpa [dirMap, mapFind] using h
  · have h := buildChannels_find_skip buffer_size SocketDir.sout s.name task.sockets ([], [])
      (fun a ha hc => hname a ha hc.2.2 hc.1)
    simpa [dirMap, mapFind] using h

/-- Witness for C10: the "bit" socket of taskBad is silently skipped. -/
theorem c10_unsupported_skipped_w :
    ∃ blk, Block.construct taskBad 2 1 = Except.ok blk ∧
      mapFind blk.buffered_sockets_in nmI = none ∧
      mapFind blk.buffered_sockets_out nmI = none :=
  c10_unsupported_skipped taskBad 2 1 (by decide) (by decide)
    { name := nmI, datatype := dtBit, dir := SocketDir.sin }
    (by decide) (by decide) (by decide)

/-- Claim C7 counterexample: construction from taskBad (whose only endpoint
descriptor has element type "bit", outside the supported six) succeeds, yet
no channel is indexed by that endpoint's name in either direction - against
the claim that every endpoint descriptor of the template gets a channel. -/
theorem c7_replicas_channels_cex :
    Block.construct taskBad 2 1 = Except.ok blkBad ∧
    mapFind blkBad.buffered_sockets_in nmI = none ∧
    mapFind blkBad.buffered_sockets_out nmI = none :=
  ⟨rfl, rfl, rfl⟩

/-- Claim C7 (amended): after successful construction the block holds exactly
n_threads replicas, and every endpoint descriptor of the template whose
element type is one of the six supported kinds is served by exactly one
channel of that element type and capacity buffer_size, indexed by the
endpoint's name under its direction (endpoint names being unique within a
direction, as the data model's identity (block, name) requires). -/
theorem c7_replicas_channels (task : Task) (buffer_size n_threads : Nat) (blk : Block)
    (hok : Block.construct task buffer_size n_threads = Except.ok blk)
    (hnodupIn : ((task.sockets.filter (fun a => a.dir = SocketDir.sin)).map Socket.name).Nodup)
    (hnodupOut : ((task.sockets.filter (fun a => a.dir = SocketDir.sout)).map Socket.name).Nodup) :
    blk.tasks.length = n_threads ∧
    ∀ s ∈ task.sockets, s.datatype ∈ supportedDatatypes →
      mapFind (dirMap (blk.buffered_sockets_in, blk.buffered_sockets_out) s.dir) s.name =
        some { datatype := s.datatype, stype := s.dir, capacity := buffer_size,
               boundTo := none } := by
  by_cases h1 : n_threads = 0
  · rw [Block.construct, if_pos h1] at hok; cases hok
  by_cases h2 : buffer_size < n_threads
  · rw [Block.construct, if_neg h1, if_pos h2] at hok; cases hok
  rw [construct_eq_ok task buffer_size n_threads h1 h2] at hok
  injection hok with hok
  subst hok
  constructor
  · simp
  · intro s hs hsupp
    have hagree : ∀ a ∈ task.sockets, a.dir = s.dir → a.name = s.name →
        a.datatype = s.datatype := by
      intro a ha hdir hnm
      have hmem_a : a ∈ task.sockets.filter (fun x => x.dir = s.dir) :=
        List.mem_filter.mpr ⟨ha, by simp [hdir]⟩
      have hmem_s : s ∈ task.sockets.filter (fun x => x.dir = s.dir) :=
        List.mem_filter.mpr ⟨hs, by simp⟩
      have heq : a = s := by
        cases hsd : s.dir
        · rw [hsd] at hmem_a hmem_s
          exact List.inj_on_of_nodup_map hnodupIn hmem_a hmem_s hnm
        · rw [hsd] at hmem_a hmem_s
          exact List.inj_on_of_nodup_map hnodupOut hmem_a hmem_s hnm
      rw [heq]
    have h := buildChannels_find_of_mem buffer_size s task.sockets ([], []) hs hsupp hagree
    simpa [dirMap] using h

/-- Witness for C7 at taskW (one int32 input, one float64 output), built with
buffer_size 2 and 2 threads. -/
theorem c7_replicas_channels_w :
    blkW.tasks.length = 2 ∧
    mapFind (dirMap (blkW.buffered_sockets_in, blkW.buffered_sockets_out) SocketDir.sin) nmI =
      some { datatype := dtInt32, stype := SocketDir.sin, capacity := 2, boundTo := none } :=
  ⟨(c7_replicas_channels taskW 2 2 blkW rfl (by decide) (by decide)).1,
   (c7_replicas_channels taskW 2 2 blkW rfl (by decide) (by decide)).2
     { name := nmI, datatype := dtInt32, dir := SocketDir.sin } (by decide) (by decide)⟩

/-- Claim C4: for constructed blocks, a bind whose two looked-up endpoints
have different element types fails with a TypeMismatch error and returns both
blocks exactly as they were - the connection step is never reached. -/
theorem c4_type_mismatch (t1 t2 : Task) (bs1 n1 bs2 n2 : Nat) (b dest_block : Block)
    (hb : Block.construct t1 bs1 n1 = Except.ok b)
    (hd : Block.construct t2 bs2 n2 = Except.ok dest_block)
    (start_sck_name dest_sck_name : String) (chIn chOut : BufferedSocket)
    (hin : mapFind b.buffered_sockets_in start_sck_name = some chIn)
    (hout : mapFind dest_block.buffered_sockets_out dest_sck_name = some chOut)
    (hne : chIn.datatype ≠ chOut.datatype) :
    b.bind start_sck_name dest_block dest_sck_name =
      (Except.error Err.typeMismatch, b, dest_block) := by
  have hsupp : chIn.datatype ∈ supportedDatatypes :=
    (construct_channels_supported t1 bs1 n1 b hb SocketDir.sin start_sck_name chIn hin).1
  have hne' : ¬ chOut.datatype = chIn.datatype := fun h => hne h.symm
  rw [bind_eq_dispatch b dest_block start_sck_name dest_sck_name chIn hin hsupp]
  simp [Block.bind_by_type, Block.get_buffered_socket_in,
    Block.get_buffered_socket_out, hin, hout, hne']

/-- Witness for C4: binding blkI's int32 input against blkOF's float64 output
fails with TypeMismatch and leaves both blocks unchanged. -/
theorem c4_type_mismatch_w :
    blkI.bind nmI blkOF nmO = (Except.error Err.typeMismatch, blkI, blkOF) :=
  c4_type_mismatch taskI taskOF 1 1 1 1 blkI blkOF rfl rfl nmI nmO
    { datatype := dtInt32, stype := SocketDir.sin, capacity := 1, boundTo := none }
    { datatype := dtFloat64, stype := SocketDir.sout, capacity := 1, boundTo := none }
    rfl rfl (by decide)

/-- Claim C5: for constructed blocks, a bind naming an endpoint absent from
the map it is looked up in - the first name among the calling block's input
sockets, or the second name among the destination block's output sockets -
fails with a NotFound error and connects nothing (both blocks are returned
exactly as they were). -/
theorem c5_not_found (t1 t2 : Task) (bs1 n1 bs2 n2 : Nat) (b dest_block : Block)
    (hb : Block.construct t1 bs1 n1 = Except.ok b)
    (hd : Block.construct t2 bs2 n2 = Except.ok dest_block)
    (start_sck_name dest_sck_name : String)
    (habs : mapFind b.buffered_sockets_in start_sck_name = none ∨
      mapFind dest_block.buffered_sockets_out dest_sck_name = none) :
    b.bind start_sck_name dest_block dest_sck_name =
      (Except.error Err.notFound, b, dest_block) := by
  rcases habs with habs | habs
  · unfold Block.bind
    rw [habs]
  · cases hfi : mapFind b.buffered_sockets_in start_sck_name with
    | none => unfold Block.bind; rw [hfi]
    | some chIn =>
      have hsupp : chIn.datatype ∈ supportedDatatypes :=
        (construct_channels_supported t1 bs1 n1 b hb SocketDir.sin start_sck_name chIn hfi).1
      rw [bind_eq_dispatch b dest_block start_sck_name dest_sck_name chIn hfi hsupp]
      simp [Block.bind_by_type, Block.get_buffered_socket_in,
        Block.get_buffered_socket_out, hfi, habs]

/-- Witness for C5: an unknown first name fails with NotFound, and a known
first name with an unknown second name fails with NotFound too. -/
theorem c5_not_found_w :
    blkI.bind nmO blkO nmO = (Except.error Err.notFound, blkI, blkO) ∧
    blkI.bind nmI blkO nmI = (Except.error Err.notFound, blkI, blkO) :=
  ⟨c5_not_found taskI taskO 1 1 1 1 blkI blkO rfl rfl nmO nmO (Or.inl rfl),
   c5_not_found taskI taskO 1 1 1 1 blkI blkO rfl rfl nmI nmI (Or.inr rfl)⟩

/-- Claim C2 counterexample: blkO has an output socket named d_out and blkI
has an input socket named d_in, so per the claim - which reads the first
argument as a name among the CALLING block's outputs and the third as a name
among the DESTINATION block's inputs - blkO.bind(d_out, blkI, d_in) would
succeed; the code instead looks the first name up among the calling block's
inputs and fails with NotFound, connecting nothing. -/
theorem c2_bind_direction_cex :
    mapFind blkO.buffered_sockets_out nmO ≠ none ∧
    mapFind blkI.buffered_sockets_in nmI ≠ none ∧
    blkO.bind nmO blkI nmI = (Except.error Err.notFound, blkO, blkI) :=
  ⟨by decide, by decide, rfl⟩

/-- Claim C2 (amended): bind(input_name, dest_block, output_name) looks up
the CALLING block's INPUT socket under the first name and the DESTINATION
block's OUTPUT socket under the second name; on success (both present, same
supported element type) it connects the calling block's input channel to read
from the destination block's output channel - the input channel records the
output channel it is now a consumer view of - returns success, and leaves the
destination block unchanged, so data produced by the destination block's
replicas becomes visible to pops by the calling block's replicas. -/
theorem c2_bind_connects (b dest_block : Block) (start_sck_name dest_sck_name : String)
    (chIn chOut : BufferedSocket)
    (hin : mapFind b.buffered_sockets_in start_sck_name = some chIn)
    (hout : mapFind dest_block.buffered_sockets_out dest_sck_name = some chOut)
    (hsupp : chIn.datatype ∈ supportedDatatypes)
    (heq : chIn.datatype = chOut.datatype) :
    b.bind start_sck_name dest_block dest_sck_name =
      (Except.ok 0,
       { b with buffered_sockets_in := mapInsert b.buffered_sockets_in start_sck_name ({ chIn with boundTo := some (dest_block.name, dest_sck_name) }) },
       dest_block) := by
  have heq' : chOut.datatype = chIn.datatype := heq.symm
  rw [bind_eq_dispatch b dest_block start_sck_name dest_sck_name chIn hin hsupp]
  simp [Block.bind_by_type, Block.get_buffered_socket_in,
    Block.get_buffered_socket_out, hin, hout, heq', socketBind]

/-- Witness for C2 (amended): binding blkI's int32 input to blkO's int32
output succeeds, records the consumer-view link on blkI's input channel, and
leaves blkO unchanged. -/
theorem c2_bind_connects_w :
    blkI.bind nmI blkO nmO =
      (Except.ok 0,
       { blkI with buffered_sockets_in := mapInsert blkI.buffered_sockets_in nmI ({ datatype := dtInt32, stype := SocketDir.sin, capacity := 1, boundTo := some (blkO.name, nmO) }) },
       blkO) :=
  c2_bind_connects blkI blkO nmI nmO
    { datatype := dtInt32, stype := SocketDir.sin, capacity := 1, boundTo := none }
    { datatype := dtInt32, stype := SocketDir.sout, capacity := 1, boundTo := none }
    rfl rfl (by decide) rfl

/-- Claim C8: when the input socket looked up by bind has a datatype outside
the six supported kinds the bind fails with the Unreachable error (both
blocks unchanged); when the datatype is one of the six, the dispatch selects
bind_by_type at exactly that type tag. -/
theorem c8_bind_dispatch (b dest_block : Block) (start_sck_name dest_sck_name : String)
    (chIn : BufferedSocket)
    (hin : mapFind b.buffered_sockets_in start_sck_name = some chIn) :
    (chIn.datatype ∉ supportedDatatypes →
      b.bind start_sck_name dest_block dest_sck_name =
        (Except.error Err.unreachable, b, dest_block)) ∧
    (chIn.datatype ∈ supportedDatatypes →
      b.bind start_sck_name dest_block dest_sck_name =
        Block.bind_by_type chIn.datatype b start_sck_name dest_block dest_sck_name) :=
  ⟨fun h => bind_eq_unreachable b dest_block start_sck_name dest_sck_name chIn hin h,
   fun h => bind_eq_dispatch b dest_block start_sck_name dest_sck_name chIn hin h⟩

/-- Witness for C8: a "bit" input socket makes bind fail with Unreachable,
and an int32 input socket dispatches to bind_by_type at int32. -/
theorem c8_bind_dispatch_w :
    blkOdd.bind nmI blkO nmO = (Except.error Err.unreachable, blkOdd, blkO) ∧
    blkI.bind nmI blkO nmO = Block.bind_by_type dtInt32 blkI nmI blkO nmO :=
  ⟨(c8_bind_dispatch blkOdd blkO nmI nmO
      { datatype := dtBit, stype := SocketDir.sin, capacity := 1, boundTo := none }
      rfl).1 (by decide),
   (c8_bind_dispatch blkI blkO nmI nmO
      { datatype := dtInt32, stype := SocketDir.sin, capacity := 1, boundTo := none }
      rfl).2 (by decide)⟩

/-! Trace lemmas for the worker-thread loop. -/

lemma spinLoop_mem (ev : Ev) : ∀ (dr rs : List Bool), ∀ x ∈ (spinLoop ev dr rs).1, x = ev := by
  intro dr
  induction dr with
  | nil => intro rs x hx; simp [spinLoop] at hx
  | cons d ds ih =>
    intro rs x hx
    cases d
    · cases rs with
      | nil =>
        simp [spinLoop] at hx
        exact hx
      | cons r rs' =>
        cases r
        · simp [spinLoop] at hx
          exact hx
        · simp [spinLoop] at hx
          rcases hx with hx | hx
          · exact hx
          · exact ih rs' x hx
    · simp [spinLoop] at hx

lemma pollAll_mem (mkEv : String → Ev) :
    ∀ (socks : List (String × BufferedSocket)) (dr rs : List Bool),
      ∀ x ∈ (pollAll mkEv socks dr rs).1, ∃ nm, x = mkEv nm := by
  intro socks
  induction socks with
  | nil => intro dr rs x hx; simp [pollAll] at hx
  | cons p rest ih =>
    intro dr rs x hx
    simp only [pollAll, List.mem_append] at hx
    rcases hx with hx | hx
    · exact ⟨p.1, spinLoop_mem (mkEv p.1) dr rs x hx⟩
    · exact ih _ _ x hx

lemma loopBody_mem (b : Block) (tid : Nat) (dr pr qr : List Bool) :
    ∀ x ∈ (loopBody b tid dr pr qr).trace,
      (∃ nm, x = Ev.popCall nm tid) ∨ x = Ev.execCall tid ∨ (∃ nm, x = Ev.pushCall nm tid) := by
  intro x hx
  unfold loopBody at hx
  by_cases hf : (readFlag (pullPhase b tid dr pr).2.1).1 = true
  · simp only [hf, if_true] at hx
    exact Or.inl (pollAll_mem _ _ _ _ x hx)
  · simp only [hf, if_false, Bool.not_eq_true] at hx
    rw [if_neg (by simp [hf])] at hx
    simp only [List.mem_append, List.mem_cons] at hx
    rcases hx with hx | hx | hx
    · exact Or.inl (pollAll_mem _ _ _ _ x hx)
    · exact Or.inr (Or.inl hx)
    · exact Or.inr (Or.inr (pollAll_mem _ _ _ _ x hx))

lemma loopBody_not_stop (b : Block) (tid : Nat) (dr pr qr : List Bool) :
    ∀ x ∈ (loopBody b tid dr pr qr).trace, x.isStop = false := by
  intro x hx
  rcases loopBody_mem b tid dr pr qr x hx with ⟨nm, rfl⟩ | rfl | ⟨nm, rfl⟩ <;> rfl

lemma loopRun_not_stop (b : Block) (tid : Nat) :
    ∀ (fuel : Nat) (dr pr qr : List Bool),
      ∀ x ∈ loopRun b tid fuel dr pr qr, x.isStop = false := by
  intro fuel
  induction fuel with
  | zero => intro dr pr qr x hx; simp [loopRun] at hx
  | succ n ih =>
    intro dr pr qr x hx
    rw [loopRun] at hx
    by_cases hf : (readFlag dr).1 = true
    · simp only [hf, if_true] at hx
      simp at hx
    · rw [if_neg (by simp [hf])] at hx
      by_cases hb : (loopBody b tid (readFlag dr).2 pr qr).didBreak = true
      · rw [if_pos hb] at hx
        exact loopBody_not_stop b tid _ pr qr x hx
      · rw [if_neg hb] at hx
        rcases List.mem_append.mp hx with hx | hx
        · exact loopBody_not_stop b tid _ pr qr x hx
        · exact ih _ _ _ x hx

/-- Claim C3: in every iteration of the worker loop, if the stop flag is
observed set right after the input-polling phase, the iteration breaks out of
the loop and its trace holds no exec call; otherwise the iteration does not
break, its trace holds exactly one exec call for this thread, and that call
sits after all the iteration's pop calls and before all its push calls. -/
theorem c3_exec_once (b : Block) (tid : Nat) (dr pr qr : List Bool) :
    (midFlag b tid dr pr = true →
      (loopBody b tid dr pr qr).didBreak = true ∧
      (loopBody b tid dr pr qr).trace.count (Ev.execCall tid) = 0) ∧
    (midFlag b tid dr pr = false →
      (loopBody b tid dr pr qr).didBreak = false ∧
      (loopBody b tid dr pr qr).trace.count (Ev.execCall tid) = 1 ∧
      ∃ t1 t3, (loopBody b tid dr pr qr).trace = t1 ++ Ev.execCall tid :: t3 ∧
        (∀ x ∈ t1, ∃ nm, x = Ev.popCall nm tid) ∧
        (∀ x ∈ t3, ∃ nm, x = Ev.pushCall nm tid)) := by
  have hpull : ∀ x ∈ (pullPhase b tid dr pr).1, ∃ nm, x = Ev.popCall nm tid :=
    fun x hx => pollAll_mem _ _ _ _ x hx
  have hpull0 : (pullPhase b tid dr pr).1.count (Ev.execCall tid) = 0 := by
    refine List.count_eq_zero.mpr (fun hmem => ?_)
    rcases hpull _ hmem with ⟨nm, h⟩
    cases h
  constructor
  · intro hmid
    unfold loopBody
    rw [if_pos (by exact hmid)]
    exact ⟨rfl, hpull0⟩
  · intro hmid
    unfold loopBody
    rw [if_neg (by simp [midFlag] at hmid; simp [hmid])]
    have hpush : ∀ x ∈ (pollAll (fun nm => Ev.pushCall nm tid) b.buffered_sockets_out
        (readFlag (pullPhase b tid dr pr).2.1).2 qr).1, ∃ nm, x = Ev.pushCall nm tid :=
      fun x hx => pollAll_mem _ _ _ _ x hx
    have hpush0 : (pollAll (fun nm => Ev.pushCall nm tid) b.buffered_sockets_out
        (readFlag (pullPhase b tid dr pr).2.1).2 qr).1.count (Ev.execCall tid) = 0 := by
      refine List.count_eq_zero.mpr (fun hmem => ?_)
      rcases hpush _ hmem with ⟨nm, h⟩
      cases h
    refine ⟨rfl, ?_, ⟨_, _, rfl, hpull, hpush⟩⟩
    simp [List.count_append, List.count_cons, hpull0, hpush0]

/-- Witness for C3: on a 2-socket block, an iteration that observes the flag
set breaks without exec; one that observes it clear execs exactly once
between its pops and pushes. -/
theorem c3_exec_once_w :
    ((loopBody blkW 0 [true] [] []).didBreak = true ∧
     (loopBody blkW 0 [true] [] []).trace.count (Ev.execCall 0) = 0) ∧
    ((loopBody blkW 0 [false, false] [] []).didBreak = false ∧
     (loopBody blkW 0 [false, false] [] []).trace.count (Ev.execCall 0) = 1 ∧
     ∃ t1 t3, (loopBody blkW 0 [false, false] [] []).trace = t1 ++ Ev.execCall 0 :: t3 ∧
       (∀ x ∈ t1, ∃ nm, x = Ev.popCall nm 0) ∧
       (∀ x ∈ t3, ∃ nm, x = Ev.pushCall nm 0)) :=
  ⟨(c3_exec_once blkW 0 [true] [] []).1 (by decide),
   (c3_exec_once blkW 0 [false, false] [] []).2 (by decide)⟩

lemma append3_get_cases (L O I : List Ev) (i : Nat) (hi : i < (L ++ (O ++ I)).length) :
    ((L ++ (O ++ I)).get ⟨i, hi⟩ ∈ L) ∨
    ((L ++ (O ++ I)).get ⟨i, hi⟩ ∈ O ∧ i < L.length + O.length) ∨
    ((L ++ (O ++ I)).get ⟨i, hi⟩ ∈ I ∧ L.length + O.length ≤ i) := by
  by_cases h1 : i < L.length
  · left
    rw [List.get_eq_getElem, List.getElem_append_left h1]
    exact List.getElem_mem h1
  · have h1' : L.length ≤ i := le_of_not_lt h1
    have hrest : i - L.length < (O ++ I).length := by
      simp only [List.length_append] at hi ⊢
      omega
    by_cases h2 : i - L.length < O.length
    · refine Or.inr (Or.inl ⟨?_, by omega⟩)
      rw [List.get_eq_getElem, List.getElem_append_right h1', List.getElem_append_left h2]
      exact List.getElem_mem h2
    · have h2' : O.length ≤ i - L.length := le_of_not_lt h2
      refine Or.inr (Or.inr ⟨?_, by omega⟩)
      rw [List.get_eq_getElem, List.getElem_append_right h1', List.getElem_append_right h2']
      exact List.getElem_mem (by simp only [List.length_append] at hrest; omega)

lemma isStop_of_isStopOut (x : Ev) (h : x.isStopOut = true) : x.isStop = true := by
  cases x <;> simp_all [Ev.isStopOut, Ev.isStop]

lemma isStop_of_isStopIn (x : Ev) (h : x.isStopIn = true) : x.isStop = true := by
  cases x <;> simp_all [Ev.isStopIn, Ev.isStop]

lemma stopPhase_order (L : List Ev) (outs ins : List (String × BufferedSocket))
    (hL : ∀ x ∈ L, x.isStop = false) :
    ∀ i j
      (hi : i < (L ++ ((outs.map fun p => Ev.stopOut p.1) ++
        (ins.map fun p => Ev.stopIn p.1))).length)
      (hj : j < (L ++ ((outs.map fun p => Ev.stopOut p.1) ++
        (ins.map fun p => Ev.stopIn p.1))).length),
      ((L ++ ((outs.map fun p => Ev.stopOut p.1) ++
        (ins.map fun p => Ev.stopIn p.1))).get ⟨i, hi⟩).isStopOut = true →
      ((L ++ ((outs.map fun p => Ev.stopOut p.1) ++
        (ins.map fun p => Ev.stopIn p.1))).get ⟨j, hj⟩).isStopIn = true → i < j := by
  intro i j hi hj hio hji
  have hilt : i < L.length + (outs.map fun p => Ev.stopOut p.1).length := by
    rcases append3_get_cases L _ _ i hi with hmem | ⟨_, hlt⟩ | ⟨hmem, _⟩
    · have h2 := isStop_of_isStopOut _ hio
      rw [hL _ hmem] at h2
      cases h2
    · exact hlt
    · rcases List.mem_map.mp hmem with ⟨p, _, hp⟩
      rw [← hp] at hio
      simp [Ev.isStopOut] at hio
  have hjge : L.length + (outs.map fun p => Ev.stopOut p.1).length ≤ j := by
    rcases append3_get_cases L _ _ j hj with hmem | ⟨hmem, _⟩ | ⟨_, hge⟩
    · have h2 := isStop_of_isStopIn _ hji
      rw [hL _ hmem] at h2
      cases h2
    · rcases List.mem_map.mp hmem with ⟨p, _, hp⟩
      rw [← hp] at hji
      simp [Ev.isStopIn] at hji
    · exact hge
  omega

/-- Claim C6: in the full trace of a worker thread, every stop() on an output
socket comes strictly before every stop() on an input socket, and every
socket of both directions receives its stop(). -/
theorem c6_stop_order (b : Block) (tid fuel : Nat) (dr pr qr : List Bool) :
    (∀ i j (hi : i < (execute_task b tid fuel dr pr qr).length)
       (hj : j < (execute_task b tid fuel dr pr qr).length),
       ((execute_task b tid fuel dr pr qr).get ⟨i, hi⟩).isStopOut = true →
       ((execute_task b tid fuel dr pr qr).get ⟨j, hj⟩).isStopIn = true → i < j) ∧
    (∀ p ∈ b.buffered_sockets_out, Ev.stopOut p.1 ∈ execute_task b tid fuel dr pr qr) ∧
    (∀ p ∈ b.buffered_sockets_in, Ev.stopIn p.1 ∈ execute_task b tid fuel dr pr qr) := by
  refine ⟨?_, ?_, ?_⟩
  · exact stopPhase_order (loopRun b tid fuel dr pr qr)
      b.buffered_sockets_out b.buffered_sockets_in
      (loopRun_not_stop b tid fuel dr pr qr)
  · intro p hp
    rw [execute_task, stopPhase]
    exact List.mem_append.mpr (Or.inr (List.mem_append.mpr
      (Or.inl (List.mem_map.mpr ⟨p, hp, rfl⟩))))
  · intro p hp
    rw [execute_task, stopPhase]
    exact List.mem_append.mpr (Or.inr (List.mem_append.mpr
      (Or.inr (List.mem_map.mpr ⟨p, hp, rfl⟩))))

/-- Witness for C6 on blkW: both its sockets receive stop() in the trace. -/
theorem c6_stop_order_w :
    Ev.stopOut nmO ∈ execute_task blkW 0 1 [true] [] [] ∧
    Ev.stopIn nmI ∈ execute_task blkW 0 1 [true] [] [] :=
  ⟨(c6_stop_order blkW 0 1 [true] [] []).2.1
     (nmO, { datatype := dtFloat64, stype := SocketDir.sout, capacity := 2, boundTo := none })
     (by decide),
   (c6_stop_order blkW 0 1 [true] [] []).2.2
     (nmI, { datatype := dtInt32, stype := SocketDir.sin, capacity := 2, boundTo := none })
     (by decide)⟩

end PipelineBlock
